import Mathlib

/-!
Verification of the tcp-udp-router core against its specification.

Each namespace shallowly embeds one component of the source:
* `Router`  — `src/core/router.ts` (rule-based router, built-in rules)
* `ResMgr`  — `src/core/resourceManager.ts`
* `ErrH`    — `src/core/errorHandler.ts` (typed errors, retry engine)
* `Sec`     — `src/security/securityManager.ts`
* `SecMW`   — `src/security/securityMiddleware.ts`
* `Plug`    — plugin manager (`PluginManager.processMessage` et al.)
* `Sess`    — `src/core/sessionStore.ts` / `src/core/connection.ts`

JavaScript effects are made explicit: possibly-throwing computations
return `Except`, wall-clock reads (`Date.now()`) become `Nat` parameters
threaded by the caller, and writes to a transport handle are collected
into an output list.
-/

namespace Router

inductive Protocol
  | tcp
  | udp
deriving DecidableEq, Repr

/-- The routing context as the transports build it: a payload buffer
(`data`, modelled as the byte string), the protocol tag, and presence
flags for the transport handles (`context.socket`, `context.server`,
`context.rinfo`). -/
structure Ctx where
  protocol : Protocol
  data : String
  hasSocket : Bool
  hasServer : Bool
  hasRinfo : Bool
deriving Repr

/-- A registered route: `addRoute(name, rule, handler)`.  A handler may
throw; when it runs it produces the list of byte strings written back to
the caller's transport. -/
structure Route where
  name : String
  rule : Ctx → Bool
  handler : Ctx → Except String (List String)

/-- `Router.route(context)`: evaluate rules in registration order, run
the handler of the first matching rule (rethrowing its exceptions) and
return `true`; return `false` when no rule matches.  The second
component collects the bytes written to the transport. -/
def route : List Route → Ctx → Except String (Bool × List String)
  | [], _ => .ok (false, [])
  | r :: rs, ctx =>
    if r.rule ctx then
      match r.handler ctx with
      | .ok outs => .ok (true, outs)
      | .error e => .error e
    else route rs ctx

/-- Write helper shared by the built-in handlers: `socket.write` for TCP
with a socket, `server.send` for UDP with a server and rinfo, nothing
otherwise. -/
def writeBack (ctx : Ctx) (bytes : String) : List String :=
  if ctx.protocol = .tcp ∧ ctx.hasSocket then [bytes]
  else if ctx.protocol = .udp ∧ ctx.hasServer ∧ ctx.hasRinfo then [bytes]
  else []

/-- The `echo` route: matches any context whose `data` is non-empty
(`context.data && context.data.length > 0`; a Buffer is always truthy)
and writes the payload back. -/
def echoRoute : Route :=
  { name := "echo"
    rule := fun ctx => ctx.data.length > 0
    handler := fun ctx => .ok (writeBack ctx ctx.data) }

/-- The `health_check` route: matches when the trimmed payload is
`health` or `ping`, replies `OK\n`. -/
def healthCheckRoute : Route :=
  { name := "health_check"
    rule := fun ctx => ctx.data.trim == "health" || ctx.data.trim == "ping"
    handler := fun ctx => .ok (writeBack ctx "OK\n") }

/-- The `metrics_request` route: matches when the trimmed payload is
`metrics` or `stats`, replies a session-count snapshot.  The session
counts resolved from the container are passed in as parameters. -/
def metricsRoute (tcpCount udpCount : Nat) : Route :=
  { name := "metrics_request"
    rule := fun ctx => ctx.data.trim == "metrics" || ctx.data.trim == "stats"
    handler := fun ctx =>
      .ok (writeBack ctx ("TCP: " ++ toString tcpCount ++ ", UDP: " ++ toString udpCount ++ "\n")) }

/-- `createDefaultRouter`: registers `echo`, then `health_check`, then
`metrics_request`, in that order. -/
def createDefaultRouter (tcpCount udpCount : Nat) : List Route :=
  [echoRoute, healthCheckRoute, metricsRoute tcpCount udpCount]

/-- A TCP context carrying the given payload, as the TCP server builds
it (socket present). -/
def tcpCtx (payload : String) : Ctx :=
  { protocol := .tcp, data := payload, hasSocket := true
    hasServer := false, hasRinfo := false }

end Router

namespace ResMgr

/-- One registered resource (`Resource` in `resourceManager.ts`).  The
dispose action is modelled by `disposeBehavior`: invocation number `n`
(0-based) returns normally iff `disposeBehavior n = true`, otherwise it
throws.  `disposeCalls` counts how many times the action has actually
run, so "runs at most once" is expressible. -/
structure Resource where
  id : String
  type : String
  isDisposed : Bool
  disposeBehavior : Nat → Bool
  disposeCalls : Nat

/-- The manager's state: the backing `Map` (insertion-ordered, keyed by
`id`) and the shutdown flag. -/
structure State where
  resources : List Resource
  isShuttingDown : Bool

/-- `ResourceStats` as returned by `getStats()` (the by-type map is kept
as an association list). -/
structure ResourceStats where
  totalResources : Nat
  resourcesByType : List (String × Nat)
  disposedResources : Nat
  activeResources : Nat
deriving DecidableEq, Repr

def bumpType (acc : List (String × Nat)) (t : String) : List (String × Nat) :=
  if acc.any (fun p => p.1 == t) then
    acc.map (fun p => if p.1 == t then (p.1, p.2 + 1) else p)
  else acc ++ [(t, 1)]

/-- `getStats()`. -/
def getStats (s : State) : ResourceStats :=
  { totalResources := s.resources.length
    resourcesByType := s.resources.foldl (fun acc r => bumpType acc r.type) []
    disposedResources := (s.resources.filter (fun r => r.isDisposed)).length
    activeResources := (s.resources.filter (fun r => !r.isDisposed)).length }

/-- `registerResource(resource)`: a logged no-op during shutdown or when
the id is already present; otherwise inserts. -/
def registerResource (s : State) (r : Resource) : State :=
  if s.isShuttingDown then s
  else if s.resources.any (fun x => x.id == r.id) then s
  else { s with resources := s.resources ++ [r] }

/-- Invoke the resource's dispose action once: the pair is (did it return
normally, the resource with its invocation counter bumped). -/
def runDispose (r : Resource) : Bool × Resource :=
  (r.disposeBehavior r.disposeCalls, { r with disposeCalls := r.disposeCalls + 1 })

/-- `disposeResource(resourceId)`: absent id → `false`; already disposed
→ `true` without running the action; otherwise run the action, and on
normal return mark `isDisposed` and answer `true`, while a thrown error
is caught and logged, the resource stays unmarked, and the answer is
`false`. -/
def disposeResource (s : State) (resourceId : String) : Bool × State :=
  match s.resources.find? (fun r => r.id == resourceId) with
  | none => (false, s)
  | some r =>
    if r.isDisposed then (true, s)
    else
      let (ok, r1) := runDispose r
      let r2 := if ok then { r1 with isDisposed := true } else r1
      (ok, { s with resources := s.resources.map (fun x => if x.id == resourceId then r2 else x) })

/-- The per-resource body of `disposeAllResources`: skip already-disposed
resources, otherwise run the action and mark `isDisposed` only when it
returned normally (the `catch` branch leaves the resource unmarked). -/
def disposeStep (r : Resource) : Resource :=
  if r.isDisposed then r
  else
    let (ok, r1) := runDispose r
    if ok then { r1 with isDisposed := true } else r1

/-- `disposeAllResources()`: flip the shutdown flag, dispose every
not-yet-disposed resource with per-resource failure isolation, return
`getStats()` of the resulting state. -/
def disposeAllResources (s : State) : ResourceStats × State :=
  let s1 : State := { resources := s.resources.map disposeStep, isShuttingDown := true }
  (getStats s1, s1)

/-- A resource whose dispose action always throws. -/
def badResource : Resource :=
  { id := "r1", type := "socket", isDisposed := false
    disposeBehavior := fun _ => false, disposeCalls := 0 }

/-- A resource whose dispose action always returns normally. -/
def goodResource : Resource :=
  { id := "r2", type := "socket", isDisposed := false
    disposeBehavior := fun _ => true, disposeCalls := 0 }

def emptyState : State := { resources := [], isShuttingDown := false }

end ResMgr

namespace ErrH

inductive ErrorType
  | connection
  | timeout
  | processing
  | resource
  | plugin
  | network
  | validationErr
  | unknown
deriving DecidableEq, Repr

inductive ErrorSeverity
  | low
  | medium
  | high
  | critical
deriving DecidableEq, Repr

/-- A raw JavaScript `Error` as `wrapError` inspects it: its `name` and
`message`. -/
structure RawError where
  name : String
  message : String
deriving DecidableEq, Repr

/-- `RouterError` (the logging-only fields — context, timestamp, stack,
originalError — are omitted; classification depends on none of them). -/
structure RouterError where
  message : String
  type : ErrorType
  severity : ErrorSeverity
  retryable : Bool
deriving DecidableEq, Repr

/-- A thrown value is either already a `RouterError` (the
`instanceof RouterError` branch) or a raw error. -/
inductive JsError
  | router (e : RouterError)
  | raw (e : RawError)

/-- `message.includes(pat)`. -/
def jsIncludes (s pat : String) : Bool :=
  decide (pat.toList <:+: s.toList)

/-- `wrapError`: heuristic classification by error name/message. -/
def wrapError (e : RawError) : RouterError :=
  if e.name == "TimeoutError" || jsIncludes e.message "timeout" then
    { message := e.message, type := .timeout, severity := .medium, retryable := true }
  else if e.name == "ECONNREFUSED" || jsIncludes e.message "connection" then
    { message := e.message, type := .connection, severity := .high, retryable := true }
  else if e.name == "ENOTFOUND" || jsIncludes e.message "network" then
    { message := e.message, type := .network, severity := .high, retryable := true }
  else if jsIncludes e.message "plugin" then
    { message := e.message, type := .plugin, severity := .medium, retryable := false }
  else if jsIncludes e.message "validation" || jsIncludes e.message "invalid" then
    { message := e.message, type := .validationErr, severity := .low, retryable := false }
  else
    { message := e.message, type := .unknown, severity := .medium, retryable := false }

/-- `error instanceof RouterError ? error : this.wrapError(error, ..)`. -/
def toRouterError : JsError → RouterError
  | .router e => e
  | .raw e => wrapError e

structure RetryConfig where
  maxRetries : Nat
  baseDelay : Nat
  maxDelay : Nat
  backoffMultiplier : Nat
  retryableErrors : List ErrorType

/-- The constructor's built-in retry policy. -/
def defaultRetryConfig : RetryConfig :=
  { maxRetries := 3, baseDelay := 1000, maxDelay := 30000, backoffMultiplier := 2
    retryableErrors := [.network, .timeout, .connection] }

/-- `shouldRetry(error, config)`. -/
def shouldRetry (e : RouterError) (cfg : RetryConfig) : Bool :=
  e.retryable && cfg.retryableErrors.contains e.type

/-- The `for (attempt = 0; attempt <= maxRetries; ...)` loop of
`executeWithRetry`, at loop index `attempt` with `fuel` further attempts
allowed (`fuel = maxRetries - attempt`).  The operation is a function of
the attempt number; the result carries the operation's outcome, the
number of times the operation was invoked, and the backoff delays slept.
On the last attempt, or on a non-retryable classification, the (wrapped)
error is handled and rethrown. -/
def retryLoop (op : Nat → Except JsError α) (cfg : RetryConfig) :
    Nat → Nat → Except RouterError α × Nat × List Nat
  | attempt, fuel =>
    match op attempt with
    | .ok v => (.ok v, 1, [])
    | .error e =>
      let re := toRouterError e
      match fuel with
      | 0 => (.error re, 1, [])
      | fuel' + 1 =>
        if shouldRetry re cfg then
          let d := min (cfg.baseDelay * cfg.backoffMultiplier ^ attempt) cfg.maxDelay
          let rest := retryLoop op cfg (attempt + 1) fuel'
          (rest.1, rest.2.1 + 1, d :: rest.2.2)
        else (.error re, 1, [])

/-- `executeWithRetry(operation, context, config)`. -/
def executeWithRetry (op : Nat → Except JsError α) (cfg : RetryConfig) :
    Except RouterError α × Nat × List Nat :=
  retryLoop op cfg 0 cfg.maxRetries

/-- `executeWithRetry` with the custom override `{ maxRetries: 2 }`
merged over the defaults. -/
def retryCfgMax2 : RetryConfig :=
  { defaultRetryConfig with maxRetries := 2 }

/-- An always-throwing operation whose error classifies as retryable
(a timeout). -/
def timeoutRaw : RawError := { name := "Error", message := "timeout while reading" }

/-- An always-throwing operation whose error classifies as non-retryable
(unknown type, `retryable = false`). -/
def unknownRaw : RawError := { name := "Error", message := "boom" }

end ErrH

namespace Sec

inductive RuleKind
  | whitelist
  | blacklist
deriving DecidableEq, Repr

/-- `IPRule` (`type` in the source).  Dates are Nat milliseconds;
`createdAt` and `description` only feed logs and are omitted. -/
structure IPRule where
  address : String
  cidr : Option String
  type : RuleKind
  expiresAt : Option Nat
deriving DecidableEq, Repr

/-- `parseInt` restricted to what `isIPInCIDR` feeds it: leading decimal
digits, `none` for NaN. -/
def jsParseInt (s : String) : Option Nat :=
  let ds := s.toList.takeWhile (fun c => c.isDigit)
  if ds.isEmpty then none
  else some (ds.foldl (fun acc c => acc * 10 + (c.toNat - 48)) 0)

/-- `isIPInCIDR` — the source's naive string-prefix matching: take the
first `floor(prefix / 8)` dot-separated groups of the network part and
test `startsWith` (`slice(0, NaN)` is the empty slice when the prefix
fails to parse). -/
def isIPInCIDR (ip cidr : String) : Bool :=
  let parts := cidr.splitOn "/"
  let network := parts.headD ""
  let k := match parts[1]? with
    | some p => (jsParseInt p).map (fun n => n / 8) |>.getD 0
    | none => 0
  ip.startsWith (String.intercalate "." ((network.splitOn ".").take k))

/-- `matchesIPRule`: CIDR containment when a (non-empty — JS truthiness)
`cidr` is present, exact address equality otherwise. -/
def matchesIPRule (ip : String) (r : IPRule) : Bool :=
  match r.cidr with
  | some c => if c == "" then ip == r.address else isIPInCIDR ip c
  | none => ip == r.address

/-- The non-expired rules: `!rule.expiresAt || rule.expiresAt > now`. -/
def activeRules (rules : List IPRule) (now : Nat) : List IPRule :=
  rules.filter (fun r => match r.expiresAt with
    | none => true
    | some t => decide (t > now))

/-- The `for (const rule of activeRules)` scan of `checkIPAccess`: the
first matching rule decides (its kind is returned). -/
def scanRules (ip : String) : List IPRule → Option RuleKind
  | [] => none
  | r :: rs => if matchesIPRule ip r then some r.type else scanRules ip rs

/-- The slice of `SecurityConfig` that `checkIPAccess` reads. -/
structure IPFilterCfg where
  enableIPFiltering : Bool
  ipRules : List IPRule

/-- `checkIPAccess(ipAddress)`, with the manual block set and the clock
made explicit. -/
def checkIPAccess (cfg : IPFilterCfg) (blockedIPs : List String) (ip : String)
    (now : Nat) : Bool :=
  if !cfg.enableIPFiltering then true
  else if blockedIPs.contains ip then false
  else
    let active := activeRules cfg.ipRules now
    match scanRules ip active with
    | some .blacklist => false
    | some .whitelist => true
    | none => if active.any (fun r => r.type == .whitelist) then false else true

/-- Modelled from the claim's words, for comparison with `checkIPAccess`:
disabled → allow; manual block set → deny; otherwise the first active
rule matching the address decides (whitelist allows, blacklist denies);
with no match, deny iff an active whitelist rule exists. -/
def checkIPAccessSpec (cfg : IPFilterCfg) (blockedIPs : List String) (ip : String)
    (now : Nat) : Bool :=
  if !cfg.enableIPFiltering then true
  else if blockedIPs.contains ip then false
  else
    let active := activeRules cfg.ipRules now
    match active.find? (matchesIPRule ip) with
    | some r => r.type == .whitelist
    | none => !(active.any (fun r => r.type == .whitelist))

/-- `RateLimitRule` (`blockDurationMs` is omitted: no code path in the
source ever sets it, so the unblock timer it guards never arms). -/
structure RateLimitRule where
  identifier : String
  windowMs : Nat
  maxRequests : Nat
  currentRequests : Nat
  resetTime : Nat
  blocked : Bool
deriving DecidableEq, Repr

/-- The slice of `SecurityConfig` that `checkRateLimit` reads
(`defaultRateLimit`). -/
structure RateLimitCfg where
  enableRateLimiting : Bool
  windowMs : Nat
  maxRequests : Nat

/-- The `rateLimitCache` `Map`, insertion-ordered. -/
abbrev RLCache := List (String × RateLimitRule)

def rlLookup (cache : RLCache) (k : String) : Option RateLimitRule :=
  (List.find? (fun p => p.1 == k) cache).map (fun p => p.2)

/-- `Map.set`: replace in place or append. -/
def rlSet (cache : RLCache) (k : String) (r : RateLimitRule) : RLCache :=
  if List.any cache (fun p => p.1 == k) then
    List.map (fun p => if p.1 == k then (k, r) else p) cache
  else cache ++ [(k, r)]

/-- `checkRateLimit(identifier, protocol)`: fixed-window counter.
Look up (or create) the identifier's rule; reset the window when
`now > resetTime`; deny without incrementing while `blocked`; otherwise
increment, and when the post-increment count exceeds `maxRequests` flip
`blocked` and deny.  The rule object is mutated in place in the source;
here every branch writes the final rule back into the cache. -/
def checkRateLimit (cfg : RateLimitCfg) (cache : RLCache) (identifier : String)
    (now : Nat) : Bool × RLCache :=
  if !cfg.enableRateLimiting then (true, cache)
  else
    let rule0 := match rlLookup cache identifier with
      | some r => r
      | none =>
        { identifier := identifier, windowMs := cfg.windowMs
          maxRequests := cfg.maxRequests, currentRequests := 0
          resetTime := now + cfg.windowMs, blocked := false }
    let rule1 := if now > rule0.resetTime then
        { rule0 with currentRequests := 0, resetTime := now + rule0.windowMs, blocked := false }
      else rule0
    if rule1.blocked then (false, rlSet cache identifier rule1)
    else
      let rule2 := { rule1 with currentRequests := rule1.currentRequests + 1 }
      if rule2.currentRequests > rule2.maxRequests then
        (false, rlSet cache identifier { rule2 with blocked := true })
      else (true, rlSet cache identifier rule2)

/-- Iterated `checkRateLimit` calls for one identifier at the given
times, collecting the verdicts. -/
def iterCalls (cfg : RateLimitCfg) (cache : RLCache) (identifier : String) :
    List Nat → List Bool × RLCache
  | [] => ([], cache)
  | t :: ts =>
    let (b, cache1) := checkRateLimit cfg cache identifier t
    let (bs, cache2) := iterCalls cfg cache1 identifier ts
    (b :: bs, cache2)

/-- The claim's configuration: `maxRequests = 10`, `window = 60000`. -/
def cfg10 : RateLimitCfg :=
  { enableRateLimiting := true, windowMs := 60000, maxRequests := 10 }

/-- The single-identifier rule states reached in the claim's scenario. -/
def mkRule (idf : String) (cnt reset : Nat) (blocked : Bool) : RateLimitRule :=
  { identifier := idf, windowMs := 60000, maxRequests := 10
    currentRequests := cnt, resetTime := reset, blocked := blocked }

end Sec

namespace Plug

/-- A JavaScript value as it flows through `processMessage`: `undefined`,
`null`, or a proper message context (abstracted to `Ctx`). -/
inductive JSVal (Ctx : Type)
  | undef
  | null
  | ctx (c : Ctx)
deriving DecidableEq, Repr

/-- Outcome of one raw `plugin.process(context)` invocation: it either
throws or returns a value. -/
inductive StepRes (Ctx : Type)
  | throws
  | ret (v : JSVal Ctx)
deriving DecidableEq, Repr

/-- A loaded plugin as `processMessage` sees it: its name, the enabled
flag read fresh from `pluginConfigs`, and its optional `process` method
as a function of the current context value. -/
structure Plugin (Ctx : Type) where
  name : String
  enabled : Bool
  process : Option (JSVal Ctx → StepRes Ctx)

/-- `safeExecutePluginMethod`: a thrown error is caught and logged and
the call evaluates to `undefined`. -/
def safeExec {Ctx : Type} (f : JSVal Ctx → StepRes Ctx) (v : JSVal Ctx) : JSVal Ctx :=
  match f v with
  | .throws => .undef
  | .ret w => w

/-- Result of a `processMessage` run: either some plugin returned `null`
(the message was dropped and `null` is returned to the caller) or the
loop completed with a final context value.  The trace records each
plugin `process` invocation as (plugin name, the context value it was
invoked with). -/
inductive RunOut (Ctx : Type)
  | dropped (trace : List (String × JSVal Ctx))
  | done (v : JSVal Ctx) (trace : List (String × JSVal Ctx))
deriving DecidableEq, Repr

def prependTrace {Ctx : Type} (e : String × JSVal Ctx) : RunOut Ctx → RunOut Ctx
  | .dropped tr => .dropped (e :: tr)
  | .done u tr => .done u (e :: tr)

def appendTrace {Ctx : Type} (tr : List (String × JSVal Ctx)) : RunOut Ctx → RunOut Ctx
  | .dropped tr2 => .dropped (tr ++ tr2)
  | .done u tr2 => .done u (tr ++ tr2)

/-- `PluginManager.processMessage(context)`: feed the current context
value through the enabled plugins in load order.  A plugin without a
`process` method, or a disabled one, is skipped.  `safeExec` turns a
throw into `undefined`; a `null` result drops the message immediately;
any other result (including the `undefined` produced by a throw) becomes
the `currentContext` for the next plugin. -/
def processMessage {Ctx : Type} : List (Plugin Ctx) → JSVal Ctx → RunOut Ctx
  | [], v => .done v []
  | p :: ps, v =>
    if p.enabled then
      match p.process with
      | some f =>
        match safeExec f v with
        | .null => .dropped [(p.name, v)]
        | .undef => prependTrace (p.name, v) (processMessage ps .undef)
        | .ctx c => prependTrace (p.name, v) (processMessage ps (.ctx c))
      | none => processMessage ps v
    else processMessage ps v

/-- The value `processMessage` resolves to: `null` on a drop, otherwise
the final context value. -/
def processResult {Ctx : Type} : RunOut Ctx → JSVal Ctx
  | .dropped _ => .null
  | .done v _ => v

/-- A plugin whose `process` always throws. -/
def pluginA : Plugin Nat :=
  { name := "A", enabled := true, process := some (fun _ => .throws) }

/-- A plugin whose `process` returns its input context unchanged. -/
def pluginB : Plugin Nat :=
  { name := "B", enabled := true, process := some (fun v => .ret v) }

/-- A plugin whose `process` always returns `null` (the drop signal). -/
def pluginDrop : Plugin Nat :=
  { name := "D", enabled := true, process := some (fun _ => .ret .null) }

end Plug

namespace SecMW

/-- The body shared by `IPFilterMiddleware.process` and
`RateLimitMiddleware.process`, parameterized by the outcome of the
underlying security-manager check (which may throw): the `try/catch`
converts a thrown error into a denial, and otherwise the check's boolean
is returned. -/
def middlewareProcess (check : Except String Bool) : Except String Bool :=
  match check with
  | .ok allowed => if !allowed then .ok false else .ok true
  | .error _ => .ok false

/-- `ConnectionLimitMiddleware.process`: the underlying check runs only
for a TCP context carrying a socket; its `try/catch` likewise converts a
throw into a denial. -/
def connLimitProcess (isTcpWithSocket : Bool) (check : Except String Bool) :
    Except String Bool :=
  if isTcpWithSocket then
    match check with
    | .ok allowed => if !allowed then .ok false else .ok true
    | .error _ => .ok false
  else .ok true

/-- The `try/catch` wrapping the body of `SecurityManager.checkIPAccess`
/ `checkRateLimit` / `checkConnectionLimit` themselves: a thrown error
inside the check is handled and the call resolves to `false`. -/
def managerCheckCaught (inner : Except String Bool) : Bool :=
  match inner with
  | .ok b => b
  | .error _ => false

/-- `SecurityPipeline.process(context)`: run each middleware in order
(each element is that middleware's outcome on this context, possibly a
throw), short-circuiting to `false` on the first denial; the surrounding
`try/catch` converts a middleware's throw into `false`. -/
def pipelineProcess : List (Except String Bool) → Except String Bool
  | [] => .ok true
  | m :: ms =>
    match m with
    | .error _ => .ok false
    | .ok false => .ok false
    | .ok true => pipelineProcess ms

end SecMW

namespace Sess

/-- A `Connection` record (`src/core/connection.ts`); dates are Nat
milliseconds.  The metadata map and byte/message counters play no part
in session identity or activity tracking and are omitted. -/
structure Connection where
  id : String
  protocol : String
  remoteAddress : String
  remotePort : Nat
  createdAt : Nat
  lastActivity : Nat
deriving DecidableEq, Repr

/-- `createConnection`: both timestamps start at `now`. -/
def createConnection (id protocol remoteAddress : String) (remotePort now : Nat) :
    Connection :=
  { id := id, protocol := protocol, remoteAddress := remoteAddress
    remotePort := remotePort, createdAt := now, lastActivity := now }

/-- `updateConnectionActivity`: refresh `lastActivity` to the current
time. -/
def updateConnectionActivity (c : Connection) (now : Nat) : Connection :=
  { c with lastActivity := now }

/-- The `udpSessions` `Map`, insertion-ordered, keyed by
`address:port`. -/
abbrev SessMap := List (String × Connection)

def udpKey (address : String) (port : Nat) : String :=
  address ++ ":" ++ toString port

def sessLookup (m : SessMap) (k : String) : Option Connection :=
  (List.find? (fun p => p.1 == k) m).map (fun p => p.2)

/-- `Map.set`: replace in place or append. -/
def sessSet (m : SessMap) (k : String) (c : Connection) : SessMap :=
  if List.any m (fun p => p.1 == k) then
    List.map (fun p => if p.1 == k then (k, c) else p) m
  else m ++ [(k, c)]

/-- `getOrCreateUdpSession(rinfo)`: look up by `address:port`; create a
session under a freshly generated id when absent, refresh `lastActivity`
when present; return the record's id.  The generated id and the clock
are explicit parameters. -/
def getOrCreateUdpSession (m : SessMap) (address : String) (port : Nat)
    (now : Nat) (freshId : String) : String × SessMap :=
  let key := udpKey address port
  match sessLookup m key with
  | none =>
    (freshId, sessSet m key (createConnection freshId "udp" address port now))
  | some c =>
    let c2 := updateConnectionActivity c now
    (c.id, sessSet m key c2)

end Sess

/-- C1: claimed: with the built-in rules, routing a context whose payload
is exactly `health` returns `true` and the caller's transport receives
exactly the bytes `OK\n`.  The code instead echoes `health` back: the
`echo` rule is registered first and matches every non-empty payload, so
the `health_check` rule is unreachable.  This theorem evaluates the
router at the failing input: `route` returns `true` but writes `health`,
not `OK\n`, to the transport. -/
theorem C1_route_health_is_echoed :
    Router.route (Router.createDefaultRouter 0 0) (Router.tcpCtx "health")
      = .ok (true, ["health"])
    ∧ "health" ≠ "OK\n" := by
  constructor
  · rfl
  · decide

/-- Helper: mapping `if p x then r2 else x` over a list whose first
`p`-match exists rewrites that first match to `r2` (provided `p r2`). -/
theorem find?_map_if {α : Type} (p : α → Bool) (r2 : α) (h2 : p r2 = true)
    (l : List α) (r : α) (hf : l.find? p = some r) :
    (l.map (fun x => if p x then r2 else x)).find? p = some r2 := by
  induction l with
  | nil => simp at hf
  | cons a l ih =>
    by_cases ha : p a = true
    · simp [List.find?_cons, ha, h2]
    · rw [List.find?_cons_of_neg _ ha] at hf
      simp only [List.map_cons, if_neg ha]
      rw [List.find?_cons_of_neg _ ha]
      exact ih hf

/-- Helper: a map that fixes every element of the list is the identity. -/
theorem map_fixes_of_mem {α : Type} (f : α → α) (l : List α)
    (h : ∀ a ∈ l, f a = a) : l.map f = l := by
  induction l with
  | nil => rfl
  | cons a l ih =>
    simp only [List.map_cons]
    rw [h a (by simp), ih (fun x hx => h x (by simp [hx]))]

/-- C3 (counterexample): for a resource whose dispose action throws, the
claim fails: after a first `disposeResource` call the resource is not
marked `isDisposed`, a second call is not a no-op returning `true` (it
returns `false`), and the dispose action has then run twice, not at most
once. -/
theorem C3_counterexample :
    ¬ (let s0 := ResMgr.registerResource ResMgr.emptyState ResMgr.badResource
       let s1 := (ResMgr.disposeResource s0 "r1").2
       (ResMgr.disposeResource s1 "r1").1 = true
       ∧ ((ResMgr.disposeResource s1 "r1").2.resources.map
            (fun r => (r.isDisposed, r.disposeCalls))) = [(true, 1)]) := by
  intro h
  exact absurd h.1 (by decide)

/-- C3 (amended): `disposeResource` characterization.  For a registered
resource: if it is already disposed the call is a no-op returning `true`
and the action does not run; if undisposed and the action returns
normally, the call returns `true`, runs the action once and marks
`isDisposed`; if undisposed and the action throws, the failure is caught
(the call returns `false` instead of propagating), the action ran once
more, but the resource is NOT marked `isDisposed` — so a later call
re-runs the action.  An unregistered id yields `false`. -/
theorem C3_disposeResource_characterization (s : ResMgr.State) (rid : String)
    (r : ResMgr.Resource)
    (hfind : s.resources.find? (fun x => x.id == rid) = some r) :
    (r.isDisposed = true → ResMgr.disposeResource s rid = (true, s))
    ∧ (r.isDisposed = false → r.disposeBehavior r.disposeCalls = true →
        (ResMgr.disposeResource s rid).1 = true
        ∧ ((ResMgr.disposeResource s rid).2.resources.find? (fun x => x.id == rid))
            = some { r with isDisposed := true, disposeCalls := r.disposeCalls + 1 })
    ∧ (r.isDisposed = false → r.disposeBehavior r.disposeCalls = false →
        (ResMgr.disposeResource s rid).1 = false
        ∧ ((ResMgr.disposeResource s rid).2.resources.find? (fun x => x.id == rid))
            = some { r with disposeCalls := r.disposeCalls + 1 }) := by
  have hid := List.find?_some hfind
  refine ⟨fun hd => ?_, fun hd hb => ?_, fun hd hb => ?_⟩
  · simp [ResMgr.disposeResource, hfind, hd]
  · constructor
    · simp [ResMgr.disposeResource, hfind, hd, ResMgr.runDispose, hb]
    · simp only [ResMgr.disposeResource, hfind, hd, ResMgr.runDispose, hb]
      simp only [Bool.false_eq_true, if_false, if_true]
      exact find?_map_if (fun x : ResMgr.Resource => x.id == rid)
        { r with isDisposed := true, disposeCalls := r.disposeCalls + 1 }
        hid s.resources r hfind
  · constructor
    · simp [ResMgr.disposeResource, hfind, hd, ResMgr.runDispose, hb]
    · simp only [ResMgr.disposeResource, hfind, hd, ResMgr.runDispose, hb]
      simp only [Bool.false_eq_true, if_false]
      exact find?_map_if (fun x : ResMgr.Resource => x.id == rid)
        { r with isDisposed := false, disposeCalls := r.disposeCalls + 1 }
        hid s.resources r hfind

/-- C3 witness: the characterization applied to a concrete one-resource
state whose dispose action succeeds. -/
theorem C3_witness :
    (ResMgr.disposeResource
        (ResMgr.registerResource ResMgr.emptyState ResMgr.goodResource) "r2").1 = true
    ∧ (((ResMgr.disposeResource
          (ResMgr.registerResource ResMgr.emptyState ResMgr.goodResource) "r2").2.resources.find?
            (fun x => x.id == "r2"))
        = some { ResMgr.goodResource with isDisposed := true, disposeCalls := 1 }) :=
  (C3_disposeResource_characterization
    (ResMgr.registerResource ResMgr.emptyState ResMgr.goodResource) "r2"
    ResMgr.goodResource rfl).2.1 rfl rfl

/-- C4 (counterexample): for a registry holding one resource whose
dispose action throws, `disposeAllResources` leaves
`getStats().activeResources` at 1, not 0: the `catch` branch never marks
`isDisposed`, so the resource stays active. -/
theorem C4_counterexample :
    ¬ ((ResMgr.disposeAllResources
          (ResMgr.registerResource ResMgr.emptyState ResMgr.badResource)).1.activeResources
        = 0) := by
  decide

/-- C4 (amended): `disposeAllResources` sets the shutdown flag, making
every subsequent `registerResource` a rejected no-op, and a second
`disposeAllResources` is a complete no-op (errors aside, it runs no
dispose action); provided every outstanding dispose action returns
normally on this invocation, `activeResources` of the returned stats is
0 — a resource whose dispose action throws instead stays active. -/
theorem C4_disposeAll_shutdown_idempotent (s : ResMgr.State)
    (hok : ∀ r ∈ s.resources, r.isDisposed = false → r.disposeBehavior r.disposeCalls = true) :
    (ResMgr.disposeAllResources s).1.activeResources = 0
    ∧ (ResMgr.disposeAllResources s).2.isShuttingDown = true
    ∧ (∀ r, ResMgr.registerResource (ResMgr.disposeAllResources s).2 r
          = (ResMgr.disposeAllResources s).2)
    ∧ ResMgr.disposeAllResources (ResMgr.disposeAllResources s).2
        = ResMgr.disposeAllResources s := by
  have hA : ∀ r1 ∈ s.resources.map ResMgr.disposeStep, r1.isDisposed = true := by
    intro r1 hr1
    rw [List.mem_map] at hr1
    obtain ⟨r, hr, rfl⟩ := hr1
    by_cases hd : r.isDisposed = true
    · simp [ResMgr.disposeStep, hd]
    · have hb := hok r hr (Bool.eq_false_iff.mpr hd)
      simp [ResMgr.disposeStep, hd, ResMgr.runDispose, hb]
  have hfix : (s.resources.map ResMgr.disposeStep).map ResMgr.disposeStep
      = s.resources.map ResMgr.disposeStep := by
    refine map_fixes_of_mem _ _ (fun r1 hr1 => ?_)
    simp [ResMgr.disposeStep, hA r1 hr1]
  refine ⟨?_, rfl, fun r => ?_, ?_⟩
  · simp only [ResMgr.disposeAllResources, ResMgr.getStats]
    have : List.filter (fun r => !r.isDisposed) (s.resources.map ResMgr.disposeStep) = [] := by
      rw [List.filter_eq_nil_iff]
      intro r1 hr1
      simp [hA r1 hr1]
    simp [this]
  · simp [ResMgr.registerResource, ResMgr.disposeAllResources]
  · simp only [ResMgr.disposeAllResources]
    rw [hfix]

/-- C4 witness: the amended theorem applied to a registry holding one
well-behaved resource. -/
theorem C4_witness :
    (ResMgr.disposeAllResources
        (ResMgr.registerResource ResMgr.emptyState ResMgr.goodResource)).1.activeResources = 0 :=
  (C4_disposeAll_shutdown_idempotent
      (ResMgr.registerResource ResMgr.emptyState ResMgr.goodResource)
      (by intro r hr hd
          simp [ResMgr.registerResource, ResMgr.emptyState] at hr
          subst hr
          rfl)).1

/-- C5: an always-failing operation whose error classifies as
non-retryable is invoked exactly once before the wrapped error is
rethrown; and with `maxRetries = 2`, an always-failing operation whose
error classifies as retryable is invoked exactly 3 times and the final
attempt's (wrapped) error is rethrown. -/
theorem C5_executeWithRetry_attempt_counts :
    (∀ (α : Type) (cfg : ErrH.RetryConfig) (err : Nat → ErrH.JsError),
      ErrH.shouldRetry (ErrH.toRouterError (err 0)) cfg = false →
      ErrH.executeWithRetry (α := α) (fun n => .error (err n)) cfg
        = (.error (ErrH.toRouterError (err 0)), 1, []))
    ∧ (∀ (α : Type) (err : Nat → ErrH.JsError),
      (∀ n, ErrH.shouldRetry (ErrH.toRouterError (err n)) ErrH.retryCfgMax2 = true) →
      (ErrH.executeWithRetry (α := α) (fun n => .error (err n)) ErrH.retryCfgMax2).1
          = .error (ErrH.toRouterError (err 2))
      ∧ (ErrH.executeWithRetry (α := α) (fun n => .error (err n)) ErrH.retryCfgMax2).2.1 = 3) := by
  constructor
  · intro α cfg err hnr
    unfold ErrH.executeWithRetry
    cases h : cfg.maxRetries with
    | zero => simp [ErrH.retryLoop]
    | succ k => simp [ErrH.retryLoop, hnr]
  · intro α err hr
    have e0 := hr 0
    have e1 := hr 1
    simp only [ErrH.retryCfgMax2, ErrH.defaultRetryConfig] at e0 e1
    constructor
    · simp [ErrH.executeWithRetry, ErrH.retryCfgMax2, ErrH.defaultRetryConfig,
        ErrH.retryLoop, e0, e1]
    · simp [ErrH.executeWithRetry, ErrH.retryCfgMax2, ErrH.defaultRetryConfig,
        ErrH.retryLoop, e0, e1]

/-- C5 witness: both parts applied at concrete always-failing
operations — a message classified unknown/non-retryable, and a timeout
message classified retryable. -/
theorem C5_witness :
    ErrH.executeWithRetry (α := Unit) (fun _ => .error (.raw ErrH.unknownRaw))
        ErrH.defaultRetryConfig
      = (.error (ErrH.toRouterError (.raw ErrH.unknownRaw)), 1, [])
    ∧ (ErrH.executeWithRetry (α := Unit) (fun _ => .error (.raw ErrH.timeoutRaw))
          ErrH.retryCfgMax2).1
        = .error (ErrH.toRouterError (.raw ErrH.timeoutRaw))
    ∧ (ErrH.executeWithRetry (α := Unit) (fun _ => .error (.raw ErrH.timeoutRaw))
          ErrH.retryCfgMax2).2.1 = 3 := by
  refine ⟨?_, ?_, ?_⟩
  · exact C5_executeWithRetry_attempt_counts.1 Unit ErrH.defaultRetryConfig
      (fun _ => .raw ErrH.unknownRaw) (by decide)
  · exact (C5_executeWithRetry_attempt_counts.2 Unit
      (fun _ => .raw ErrH.timeoutRaw) (by intro n; rfl)).1
  · exact (C5_executeWithRetry_attempt_counts.2 Unit
      (fun _ => .raw ErrH.timeoutRaw) (by intro n; rfl)).2

/-- Helper: an in-window `checkRateLimit` call below the limit allows
and increments the counter. -/
theorem rl_step_allow (idf : String) (R k t : Nat) (ht : t ≤ R) (hk : k < 10) :
    Sec.checkRateLimit Sec.cfg10 [(idf, Sec.mkRule idf k R false)] idf t
      = (true, [(idf, Sec.mkRule idf (k + 1) R false)]) := by
  simp [Sec.checkRateLimit, Sec.cfg10, Sec.rlLookup, Sec.rlSet, Sec.mkRule,
    Nat.not_lt.mpr ht, Nat.not_lt.mpr hk]

/-- Helper: the in-window call that pushes the counter past the limit
denies and flips `blocked`. -/
theorem rl_step_deny (idf : String) (R t : Nat) (ht : t ≤ R) :
    Sec.checkRateLimit Sec.cfg10 [(idf, Sec.mkRule idf 10 R false)] idf t
      = (false, [(idf, Sec.mkRule idf 11 R true)]) := by
  simp [Sec.checkRateLimit, Sec.cfg10, Sec.rlLookup, Sec.rlSet, Sec.mkRule,
    Nat.not_lt.mpr ht]

/-- Helper: an in-window call on a blocked entry denies and leaves the
entry (in particular its counter) unchanged. -/
theorem rl_step_blocked (idf : String) (R c t : Nat) (ht : t ≤ R) :
    Sec.checkRateLimit Sec.cfg10 [(idf, Sec.mkRule idf c R true)] idf t
      = (false, [(idf, Sec.mkRule idf c R true)]) := by
  simp [Sec.checkRateLimit, Sec.cfg10, Sec.rlLookup, Sec.rlSet, Sec.mkRule,
    Nat.not_lt.mpr ht]

/-- Helper: a call after the window elapsed resets the entry, allows,
and leaves the counter at 1. -/
theorem rl_step_reset (idf : String) (R c t : Nat) (b : Bool) (ht : R < t) :
    Sec.checkRateLimit Sec.cfg10 [(idf, Sec.mkRule idf c R b)] idf t
      = (true, [(idf, Sec.mkRule idf 1 (t + 60000) false)]) := by
  simp [Sec.checkRateLimit, Sec.cfg10, Sec.rlLookup, Sec.rlSet, Sec.mkRule, ht]

/-- Helper: the first call for an identifier creates its entry with the
configured window and allows. -/
theorem rl_step_first (idf : String) (t : Nat) :
    Sec.checkRateLimit Sec.cfg10 [] idf t
      = (true, [(idf, Sec.mkRule idf 1 (t + 60000) false)]) := by
  simp [Sec.checkRateLimit, Sec.cfg10, Sec.rlLookup, Sec.rlSet, Sec.mkRule,
    Nat.not_lt.mpr (Nat.le_add_right t 60000)]

/-- Helper: a run of in-window calls that stays within the limit allows
every call and adds its length to the counter. -/
theorem rl_calls_in_window (idf : String) (R : Nat) (ts : List Nat)
    (hin : ∀ t ∈ ts, t ≤ R) : ∀ k, k + ts.length ≤ 10 →
    Sec.iterCalls Sec.cfg10 [(idf, Sec.mkRule idf k R false)] idf ts
      = (List.replicate ts.length true, [(idf, Sec.mkRule idf (k + ts.length) R false)]) := by
  induction ts with
  | nil => intro k hk; simp [Sec.iterCalls]
  | cons t ts ih =>
    intro k hk
    have ht : t ≤ R := hin t (by simp)
    have hklt : k < 10 := by simp at hk; omega
    rw [show Sec.iterCalls Sec.cfg10 [(idf, Sec.mkRule idf k R false)] idf (t :: ts)
        = (let r := Sec.checkRateLimit Sec.cfg10 [(idf, Sec.mkRule idf k R false)] idf t
           let r2 := Sec.iterCalls Sec.cfg10 r.2 idf ts
           (r.1 :: r2.1, r2.2)) from rfl]
    rw [rl_step_allow idf R k t ht hklt]
    have hmem : ∀ t1 ∈ ts, t1 ≤ R := fun t1 h1 => hin t1 (by simp [h1])
    have hrec := ih hmem (k + 1) (by simp at hk; omega)
    simp only [hrec]
    simp [List.replicate_succ, Sec.mkRule]
    omega

/-- C6: with `maxRequests = 10` and `window = 60000`ms, the first 10
`checkRateLimit` calls for an identifier within the entry's window all
allow (leaving the counter at 10); the 11th in-window call denies and
flips the entry to `blocked` (counter 11); while blocked, a further
in-window call denies without touching the entry (in particular without
incrementing the counter); and once the window has elapsed the next call
allows, the counter reflecting only the post-reset call (1). -/
theorem C6_rate_limit_window (idf : String) (t0 : Nat) (rest : List Nat)
    (hlen : rest.length = 9) (hin : ∀ t ∈ rest, t ≤ t0 + 60000)
    (t11 tb tw : Nat) (h11 : t11 ≤ t0 + 60000) (hb : tb ≤ t0 + 60000)
    (hw : t0 + 60000 < tw) :
    Sec.iterCalls Sec.cfg10 [] idf (t0 :: rest)
      = (List.replicate 10 true, [(idf, Sec.mkRule idf 10 (t0 + 60000) false)])
    ∧ Sec.checkRateLimit Sec.cfg10 [(idf, Sec.mkRule idf 10 (t0 + 60000) false)] idf t11
      = (false, [(idf, Sec.mkRule idf 11 (t0 + 60000) true)])
    ∧ Sec.checkRateLimit Sec.cfg10 [(idf, Sec.mkRule idf 11 (t0 + 60000) true)] idf tb
      = (false, [(idf, Sec.mkRule idf 11 (t0 + 60000) true)])
    ∧ Sec.checkRateLimit Sec.cfg10 [(idf, Sec.mkRule idf 11 (t0 + 60000) true)] idf tw
      = (true, [(idf, Sec.mkRule idf 1 (tw + 60000) false)]) := by
  refine ⟨?_, rl_step_deny idf (t0 + 60000) t11 h11,
    rl_step_blocked idf (t0 + 60000) 11 tb hb,
    rl_step_reset idf (t0 + 60000) 11 tw true hw⟩
  rw [show Sec.iterCalls Sec.cfg10 [] idf (t0 :: rest)
      = (let r := Sec.checkRateLimit Sec.cfg10 [] idf t0
         let r2 := Sec.iterCalls Sec.cfg10 r.2 idf rest
         (r.1 :: r2.1, r2.2)) from rfl]
  rw [rl_step_first idf t0]
  have hrec := rl_calls_in_window idf (t0 + 60000) rest hin 1 (by omega)
  simp only [hrec]
  simp [hlen, List.replicate_succ]

/-- C6 witness: the scenario at concrete times — ten calls at time 0,
an 11th and a blocked call at time 0, and a final call after the window
at time 60001. -/
theorem C6_witness :
    Sec.iterCalls Sec.cfg10 [] "10.0.0.5" (0 :: List.replicate 9 0)
      = (List.replicate 10 true, [("10.0.0.5", Sec.mkRule "10.0.0.5" 10 60000 false)])
    ∧ Sec.checkRateLimit Sec.cfg10 [("10.0.0.5", Sec.mkRule "10.0.0.5" 10 60000 false)]
        "10.0.0.5" 0
      = (false, [("10.0.0.5", Sec.mkRule "10.0.0.5" 11 60000 true)])
    ∧ Sec.checkRateLimit Sec.cfg10 [("10.0.0.5", Sec.mkRule "10.0.0.5" 11 60000 true)]
        "10.0.0.5" 0
      = (false, [("10.0.0.5", Sec.mkRule "10.0.0.5" 11 60000 true)])
    ∧ Sec.checkRateLimit Sec.cfg10 [("10.0.0.5", Sec.mkRule "10.0.0.5" 11 60000 true)]
        "10.0.0.5" 60001
      = (true, [("10.0.0.5", Sec.mkRule "10.0.0.5" 1 120001 false)]) := by
  have h := C6_rate_limit_window "10.0.0.5" 0 (List.replicate 9 0) (by simp)
    (by intro t ht; simp at ht; omega) 0 0 60001 (by omega) (by omega) (by omega)
  simpa using h

/-- Helper: the rule scan returns the kind of the first matching rule. -/
theorem scanRules_eq_find (ip : String) (l : List Sec.IPRule) :
    Sec.scanRules ip l = (l.find? (Sec.matchesIPRule ip)).map (fun r => r.type) := by
  induction l with
  | nil => rfl
  | cons r rs ih =>
    by_cases hm : Sec.matchesIPRule ip r = true
    · simp [Sec.scanRules, hm, List.find?_cons]
    · rw [List.find?_cons_of_neg _ hm]
      simpa [Sec.scanRules, hm] using ih

/-- C7: `checkIPAccess` implements exactly the claimed decision
procedure — disabled → allow; manual block set → deny; otherwise the
first active matching rule decides (whitelist allows, blacklist denies);
no match denies iff an active whitelist rule exists — and in particular,
with a single whitelist rule for 10.0.0.1 and no blacklist rules, the
address 10.0.0.2 is denied. -/
theorem C7_checkIPAccess_matches_spec :
    (∀ (cfg : Sec.IPFilterCfg) (blockedIPs : List String) (ip : String) (now : Nat),
      Sec.checkIPAccess cfg blockedIPs ip now = Sec.checkIPAccessSpec cfg blockedIPs ip now)
    ∧ Sec.checkIPAccess
        { enableIPFiltering := true
          ipRules := [{ address := "10.0.0.1", cidr := none
                        type := .whitelist, expiresAt := none }] }
        [] "10.0.0.2" 0 = false := by
  constructor
  · intro cfg blockedIPs ip now
    by_cases hE : cfg.enableIPFiltering
    · by_cases hB : blockedIPs.contains ip
      · have hBm : ip ∈ blockedIPs := by simpa using hB
        simp [Sec.checkIPAccess, Sec.checkIPAccessSpec, hE, hBm]
      · simp only [Sec.checkIPAccess, Sec.checkIPAccessSpec, hE, hB,
          Bool.not_true, if_false, Bool.false_eq_true]
        rw [scanRules_eq_find]
        cases hf : (Sec.activeRules cfg.ipRules now).find? (Sec.matchesIPRule ip) with
        | none =>
          cases hA : (Sec.activeRules cfg.ipRules now).any
              (fun r => r.type == Sec.RuleKind.whitelist) <;>
            simp [hf, hA]
        | some r =>
          cases ht : r.type <;> simp [hf, ht]
    · simp [Sec.checkIPAccess, Sec.checkIPAccessSpec, hE]
  · rfl

/-- Helper: prepending one trace entry and then a whole prefix composes. -/
theorem prependTrace_appendTrace {Ctx : Type} (e : String × Plug.JSVal Ctx)
    (tr : List (String × Plug.JSVal Ctx)) (r : Plug.RunOut Ctx) :
    Plug.prependTrace e (Plug.appendTrace tr r) = Plug.appendTrace (e :: tr) r := by
  cases r <;> rfl

/-- Helper: the empty trace prefix is neutral. -/
theorem appendTrace_nil {Ctx : Type} (r : Plug.RunOut Ctx) :
    Plug.appendTrace [] r = r := by
  cases r <;> rfl

/-- Helper: a `processMessage` run over `as ++ bs` that completes `as`
with value `v1` continues as the run of `bs` from `v1`, with the traces
concatenated. -/
theorem processMessage_append {Ctx : Type} (as bs : List (Plug.Plugin Ctx))
    (v v1 : Plug.JSVal Ctx) (tr : List (String × Plug.JSVal Ctx))
    (h : Plug.processMessage as v = .done v1 tr) :
    Plug.processMessage (as ++ bs) v
      = Plug.appendTrace tr (Plug.processMessage bs v1) := by
  induction as generalizing v tr with
  | nil =>
    simp only [Plug.processMessage] at h
    cases h
    simp [appendTrace_nil]
  | cons p as ih =>
    cases hE : p.enabled with
    | false =>
      simp only [Plug.processMessage, hE, Bool.false_eq_true, if_false] at h ⊢
      exact ih v tr h
    | true =>
      cases hP : p.process with
      | none =>
        simp only [Plug.processMessage, hE, hP, if_true] at h ⊢
        exact ih v tr h
      | some f =>
        cases hS : Plug.safeExec f v with
        | null => simp [Plug.processMessage, hE, hP, hS] at h
        | undef =>
          simp only [Plug.processMessage, hE, hP, hS, if_true] at h ⊢
          cases hR : Plug.processMessage as (Plug.JSVal.undef : Plug.JSVal Ctx) with
          | dropped tr2 => rw [hR] at h; simp [Plug.prependTrace] at h
          | done u tr2 =>
            rw [hR] at h
            simp only [Plug.prependTrace, Plug.RunOut.done.injEq] at h
            obtain ⟨rfl, rfl⟩ := h
            simp only [List.append_eq]
            rw [ih _ _ hR, prependTrace_appendTrace]
        | ctx c =>
          simp only [Plug.processMessage, hE, hP, hS, if_true] at h ⊢
          cases hR : Plug.processMessage as (Plug.JSVal.ctx c) with
          | dropped tr2 => rw [hR] at h; simp [Plug.prependTrace] at h
          | done u tr2 =>
            rw [hR] at h
            simp only [Plug.prependTrace, Plug.RunOut.done.injEq] at h
            obtain ⟨rfl, rfl⟩ := h
            simp only [List.append_eq]
            rw [ih _ _ hR, prependTrace_appendTrace]

/-- C2 (counterexample): two enabled plugins, the first of which throws;
the trace of `processMessage` shows the second plugin is invoked with
`undefined`, which is not the prior context the first plugin received —
refuting the claim that the next plugin gets the prior context. -/
theorem C2_counterexample :
    Plug.processMessage [Plug.pluginA, Plug.pluginB] (Plug.JSVal.ctx 0)
      = .done .undef [("A", .ctx 0), ("B", .undef)]
    ∧ (Plug.JSVal.undef : Plug.JSVal Nat) ≠ .ctx 0 := by
  constructor
  · rfl
  · decide

/-- C2 (amended): an exception from a plugin's process step is caught —
`processMessage` always resolves, continuing with the remaining
plugins — but the next enabled plugin is invoked with `undefined` (the
value `safeExecutePluginMethod` returns after a catch), not with the
prior context the failing plugin received. -/
theorem C2_plugin_throw_continues_with_undefined {Ctx : Type}
    (as bs : List (Plug.Plugin Ctx)) (p : Plug.Plugin Ctx)
    (f : Plug.JSVal Ctx → Plug.StepRes Ctx) (v v1 : Plug.JSVal Ctx)
    (tr : List (String × Plug.JSVal Ctx))
    (h1 : Plug.processMessage as v = .done v1 tr)
    (hp : p.enabled = true) (hf : p.process = some f)
    (hthrow : f v1 = .throws) :
    Plug.processMessage (as ++ p :: bs) v
      = Plug.appendTrace tr (Plug.prependTrace (p.name, v1)
          (Plug.processMessage bs Plug.JSVal.undef)) := by
  rw [processMessage_append as (p :: bs) v v1 tr h1]
  congr 1
  simp [Plug.processMessage, hp, hf, Plug.safeExec, hthrow]

/-- C2 witness: the amended theorem applied to a throwing plugin followed
by an identity plugin. -/
theorem C2_witness :
    Plug.processMessage ([] ++ Plug.pluginA :: [Plug.pluginB]) (Plug.JSVal.ctx 0)
      = Plug.appendTrace [] (Plug.prependTrace ("A", Plug.JSVal.ctx 0)
          (Plug.processMessage [Plug.pluginB] Plug.JSVal.undef)) :=
  C2_plugin_throw_continues_with_undefined [] [Plug.pluginB] Plug.pluginA
    (fun _ => .throws) (Plug.JSVal.ctx 0) (Plug.JSVal.ctx 0) [] rfl rfl rfl rfl

/-- C8: once an enabled plugin's process step returns `null` (the drop
signal), `processMessage` returns the drop signal to its caller and the
trace ends there — no later plugin's process step executes. -/
theorem C8_drop_short_circuits {Ctx : Type}
    (as bs : List (Plug.Plugin Ctx)) (p : Plug.Plugin Ctx)
    (f : Plug.JSVal Ctx → Plug.StepRes Ctx) (v v1 : Plug.JSVal Ctx)
    (tr : List (String × Plug.JSVal Ctx))
    (h1 : Plug.processMessage as v = .done v1 tr)
    (hp : p.enabled = true) (hf : p.process = some f)
    (hnull : f v1 = .ret .null) :
    Plug.processMessage (as ++ p :: bs) v = .dropped (tr ++ [(p.name, v1)])
    ∧ Plug.processResult (Plug.processMessage (as ++ p :: bs) v) = .null := by
  have hstep : Plug.processMessage (p :: bs) v1 = .dropped [(p.name, v1)] := by
    simp [Plug.processMessage, hp, hf, Plug.safeExec, hnull]
  have hall : Plug.processMessage (as ++ p :: bs) v = .dropped (tr ++ [(p.name, v1)]) := by
    rw [processMessage_append as (p :: bs) v v1 tr h1, hstep]
    rfl
  exact ⟨hall, by rw [hall]; rfl⟩

/-- C8 witness: an identity plugin, then a dropping plugin, then another
identity plugin; the run drops after the second plugin. -/
theorem C8_witness :
    Plug.processMessage ([Plug.pluginB] ++ Plug.pluginDrop :: [Plug.pluginB])
        (Plug.JSVal.ctx 0)
      = .dropped [("B", Plug.JSVal.ctx 0), ("D", Plug.JSVal.ctx 0)] := by
  have h := (C8_drop_short_circuits [Plug.pluginB] [Plug.pluginB] Plug.pluginDrop
    (fun _ => .ret .null) (Plug.JSVal.ctx 0) (Plug.JSVal.ctx 0)
    [("B", Plug.JSVal.ctx 0)] rfl rfl rfl rfl).1
  simpa using h

/-- C10: every security middleware's process and the pipeline's process
resolve to a boolean and never reject: a thrown check is converted into
a denial (`false`), and a pipeline containing a throwing middleware
resolves to `false`. -/
theorem C10_security_checks_never_reject :
    (∀ check : Except String Bool, ∃ b, SecMW.middlewareProcess check = .ok b)
    ∧ (∀ e, SecMW.middlewareProcess (.error e) = .ok false)
    ∧ (∀ (isTcp : Bool) (check : Except String Bool),
        ∃ b, SecMW.connLimitProcess isTcp check = .ok b)
    ∧ (∀ e, SecMW.connLimitProcess true (.error e) = .ok false)
    ∧ (∀ e, SecMW.managerCheckCaught (.error e) = false)
    ∧ (∀ ms, ∃ b, SecMW.pipelineProcess ms = .ok b)
    ∧ (∀ (ms1 : List (Except String Bool)) (e : String) (ms2 : List (Except String Bool)),
        SecMW.pipelineProcess (ms1 ++ .error e :: ms2) = .ok false) := by
  refine ⟨?_, fun e => rfl, ?_, fun e => rfl, fun e => rfl, ?_, ?_⟩
  · intro check
    match check with
    | .ok true => exact ⟨true, rfl⟩
    | .ok false => exact ⟨false, rfl⟩
    | .error e => exact ⟨false, rfl⟩
  · intro isTcp check
    cases isTcp with
    | false => exact ⟨true, rfl⟩
    | true =>
      match check with
      | .ok true => exact ⟨true, rfl⟩
      | .ok false => exact ⟨false, rfl⟩
      | .error e => exact ⟨false, rfl⟩
  · intro ms
    induction ms with
    | nil => exact ⟨true, rfl⟩
    | cons m ms ih =>
      match m with
      | .error e => exact ⟨false, rfl⟩
      | .ok false => exact ⟨false, rfl⟩
      | .ok true => simpa [SecMW.pipelineProcess] using ih
  · intro ms1 e ms2
    induction ms1 with
    | nil => rfl
    | cons m ms ih =>
      match m with
      | .error e2 => rfl
      | .ok false => rfl
      | .ok true => simpa [SecMW.pipelineProcess] using ih

/-- Helper: after `sessSet m k c`, looking up `k` yields `c`. -/
theorem sessLookup_sessSet (m : Sess.SessMap) (k : String) (c : Sess.Connection) :
    Sess.sessLookup (Sess.sessSet m k c) k = some c := by
  unfold Sess.sessSet
  by_cases h : List.any m (fun p => p.1 == k) = true
  · simp only [h, if_true]
    have hex : ∃ x ∈ m, (fun p : String × Sess.Connection => p.1 == k) x = true := by
      simpa using h
    have hsome : ∃ p0, List.find? (fun p : String × Sess.Connection => p.1 == k) m
        = some p0 := by
      rw [← Option.isSome_iff_exists, List.find?_isSome]
      exact hex
    obtain ⟨p0, hp0⟩ := hsome
    unfold Sess.sessLookup
    rw [find?_map_if (fun p : String × Sess.Connection => p.1 == k) (k, c)
      (by simp) m p0 hp0]
    rfl
  · rw [if_neg h]
    have hnone : List.find? (fun p : String × Sess.Connection => p.1 == k) m = none := by
      rw [List.find?_eq_none]
      intro x hx hpx
      exact h (List.any_eq_true.mpr ⟨x, hx, hpx⟩)
    unfold Sess.sessLookup
    rw [List.find?_append, hnone]
    simp [List.find?]

/-- C9: two `getOrCreateUdpSession` calls for the same address and port
return the same session id; after the first call the stored record's
`lastActivity` equals the first call's clock, the second call refreshes
it to the second call's clock, and under a non-decreasing clock it never
decreases. -/
theorem C9_udp_session_same_id_activity (m : Sess.SessMap) (address : String)
    (port now1 now2 : Nat) (fresh1 fresh2 : String) (hmono : now1 ≤ now2) :
    ∃ c1 : Sess.Connection,
      Sess.sessLookup (Sess.getOrCreateUdpSession m address port now1 fresh1).2
          (Sess.udpKey address port) = some c1
      ∧ c1.id = (Sess.getOrCreateUdpSession m address port now1 fresh1).1
      ∧ c1.lastActivity = now1
      ∧ (Sess.getOrCreateUdpSession
            (Sess.getOrCreateUdpSession m address port now1 fresh1).2
            address port now2 fresh2).1
          = (Sess.getOrCreateUdpSession m address port now1 fresh1).1
      ∧ Sess.sessLookup (Sess.getOrCreateUdpSession
            (Sess.getOrCreateUdpSession m address port now1 fresh1).2
            address port now2 fresh2).2 (Sess.udpKey address port)
          = some (Sess.updateConnectionActivity c1 now2)
      ∧ c1.lastActivity ≤ (Sess.updateConnectionActivity c1 now2).lastActivity := by
  cases hl : Sess.sessLookup m (Sess.udpKey address port) with
  | none =>
    refine ⟨Sess.createConnection fresh1 "udp" address port now1, ?_, ?_, rfl, ?_, ?_, ?_⟩ <;>
      simp only [Sess.getOrCreateUdpSession, hl, sessLookup_sessSet,
        Sess.updateConnectionActivity, Sess.createConnection]
    · exact hmono
  | some c0 =>
    refine ⟨Sess.updateConnectionActivity c0 now1, ?_, ?_, rfl, ?_, ?_, ?_⟩ <;>
      simp only [Sess.getOrCreateUdpSession, hl, sessLookup_sessSet,
        Sess.updateConnectionActivity]
    · exact hmono

/-- C9 witness: the theorem applied to an empty store at clock values
0 and 1. -/
theorem C9_witness :
    ∃ c1 : Sess.Connection,
      Sess.sessLookup (Sess.getOrCreateUdpSession [] "1.2.3.4" 5 0 "s1").2
          (Sess.udpKey "1.2.3.4" 5) = some c1
      ∧ c1.id = (Sess.getOrCreateUdpSession [] "1.2.3.4" 5 0 "s1").1
      ∧ c1.lastActivity = 0
      ∧ (Sess.getOrCreateUdpSession
            (Sess.getOrCreateUdpSession [] "1.2.3.4" 5 0 "s1").2 "1.2.3.4" 5 1 "s2").1
          = (Sess.getOrCreateUdpSession [] "1.2.3.4" 5 0 "s1").1
      ∧ Sess.sessLookup (Sess.getOrCreateUdpSession
            (Sess.getOrCreateUdpSession [] "1.2.3.4" 5 0 "s1").2 "1.2.3.4" 5 1 "s2").2
          (Sess.udpKey "1.2.3.4" 5)
          = some (Sess.updateConnectionActivity c1 1)
      ∧ c1.lastActivity ≤ (Sess.updateConnectionActivity c1 1).lastActivity :=
  C9_udp_session_same_id_activity [] "1.2.3.4" 5 0 1 "s1" "s2" (by omega)
